import Mathlib

/-!
# Cero — verification of the subscription/entitlement engine, session manager,
# request pipeline and billing ledger

Shallow embedding of the core of the Cero server (C sources under `src/`):

* `src/billing/subscription.h` + the subscription part of `src/auth/auth.c`:
  plans, statuses, `subscription_is_valid`, `subscription_update`,
  `subscription_create`.
* `src/billing/admin.c`: `billing_log_event`, `billing_mark_as_paid`.
* the entitlement part of `src/billing/subscription.h`:
  `entitlement_has_feature`.
* `src/auth/session.c`: `session_validate`, `session_update_activity`.
* `src/core/router.c`: `router_handle_request`, `routes_register_all`.
* `src/core/server.c` + `src/core/response.c`: cookie lookup
  (`request_get_cookie`) and the session-resolution step of
  `server_handle_client`.

The SQLite store is modelled as explicit state (`DBState`, `AuthState`);
`time(NULL)` becomes a `now : Int` parameter; a C function that can hit a
storage error takes explicit failure flags and returns `Option`, where
`none` means the statement failed and (inside a transaction) everything
was rolled back, so the caller's state stands.  `time_t` and SQLite
integers are modelled as `Int`; C strings that matter byte-by-byte
(tokens, cookie entries) are `List Char`.
-/

namespace Cero

/-- `plan_t` from `src/billing/subscription.h`. -/
inductive Plan
  | free
  | pro
  | enterprise
deriving DecidableEq, Repr

/-- `subscription_status_t` from `src/billing/subscription.h`. -/
inductive SubStatus
  | active
  | gracePeriod
  | expired
  | cancelled
deriving DecidableEq, Repr

/-- `subscription_plan_to_string` from `src/auth/auth.c` (subscription part). -/
def subscription_plan_to_string : Plan → String
  | .free => "free"
  | .pro => "pro"
  | .enterprise => "enterprise"

/-- `subscription_status_to_string` from `src/auth/auth.c` (subscription part). -/
def subscription_status_to_string : SubStatus → String
  | .active => "active"
  | .gracePeriod => "grace_period"
  | .expired => "expired"
  | .cancelled => "cancelled"

/-- `subscription_string_to_plan` from `src/auth/auth.c` (subscription part). -/
def subscription_string_to_plan (s : String) : Plan :=
  if s = "free" then .free
  else if s = "pro" then .pro
  else if s = "enterprise" then .enterprise
  else .free

/-- `subscription_string_to_status` from `src/auth/auth.c` (subscription part). -/
def subscription_string_to_status (s : String) : SubStatus :=
  if s = "active" then .active
  else if s = "grace_period" then .gracePeriod
  else if s = "expired" then .expired
  else if s = "cancelled" then .cancelled
  else .expired

/-- One row of the `subscriptions` table (`subscription_t`).
`grace_until = 0` models SQL `NULL`/no grace period, exactly as the C code
reads the column through `db_column_int64` and tests `grace_until > 0`. -/
structure Subscription where
  account_id : Int
  plan : Plan
  status : SubStatus
  valid_from : Int
  valid_until : Int
  grace_until : Int
  provider : String
  external_id : String
  notes : String
  created_at : Int
  updated_at : Int
deriving DecidableEq, Repr

/-- One row of the append-only `billing_events` table (`billing_event_t`).
Columns omitted by an `INSERT` keep their schema default: `amount_cents`
defaults to `NULL` (here `none`), `currency` to `"USD"`, `payment_method`
and `external_reference` to `NULL` (here `none`). -/
structure BillingEvent where
  account_id : Int
  event_type : String
  previous_plan : String
  new_plan : String
  previous_status : String
  new_status : String
  amount_cents : Option Int
  currency : String
  payment_method : Option String
  external_reference : Option String
  admin_user_id : Int
  notes : String
  occurred_at : Int
deriving DecidableEq, Repr

/-- The billing-relevant slice of the SQLite database: the `subscriptions`
table (unique index on `account_id`) and the `billing_events` table in
insertion = occurrence order. -/
structure DBState where
  subs : List Subscription
  events : List BillingEvent
deriving DecidableEq, Repr

/-- The empty database. -/
def db_empty : DBState := { subs := [], events := [] }

/-- `subscription_get_by_account`: `SELECT ... FROM subscriptions WHERE
account_id = ?`, first row if any. -/
def subscription_get_by_account (st : DBState) (account_id : Int) :
    Option Subscription :=
  st.subs.find? (fun s => s.account_id == account_id)

/-- The grace-period test inside `subscription_is_valid`:
`sub->grace_until > 0 && now <= sub->grace_until`. -/
def subscription_grace_check (sub : Subscription) (now : Int) : Bool :=
  sub.grace_until > 0 && now ≤ sub.grace_until

/-- `subscription_is_valid` from `src/auth/auth.c` (subscription part),
with `time(NULL)` passed in as `now`. -/
def subscription_is_valid (sub : Subscription) (now : Int) : Bool :=
  if sub.status == SubStatus.cancelled || sub.status == SubStatus.expired then
    if subscription_grace_check sub now then true else false
  else
    if now < sub.valid_from || now > sub.valid_until then false
    else true

/-- Which statements of a transaction fail with a storage error.  Prepare
and step failures of one statement are collapsed into one flag: in the C
code both paths call `db_rollback_transaction()` and return `-1`. -/
structure StoreFailure where
  upsert_fails : Bool
  event_insert_fails : Bool
deriving DecidableEq, Repr

/-- The failure-free store. -/
def noFail : StoreFailure := ⟨false, false⟩

/-- The upsert statement inside `subscription_update`: `UPDATE
subscriptions SET plan, status, valid_until, notes, updated_at WHERE
account_id = ?` when a row exists, otherwise `INSERT` with
`valid_from = now`, `grace_until = 0`, `provider = 'manual'`,
`external_id = ''`. -/
def subscription_upsert_rows (st : DBState) (has_current : Bool)
    (account_id : Int) (new_plan : Plan) (new_status : SubStatus)
    (valid_until : Int) (notes : String) (now : Int) : List Subscription :=
  if has_current then
    st.subs.map (fun s =>
      if s.account_id == account_id then
        { s with plan := new_plan, status := new_status,
                 valid_until := valid_until, notes := notes,
                 updated_at := now }
      else s)
  else
    st.subs ++ [{ account_id := account_id, plan := new_plan,
                  status := new_status, valid_from := now,
                  valid_until := valid_until, grace_until := 0,
                  provider := "manual", external_id := "", notes := notes,
                  created_at := now, updated_at := now }]

/-- The `billing_events` row inserted by `subscription_update`.  The
`INSERT` lists only `(account_id, event_type, previous_plan, new_plan,
previous_status, new_status, admin_user_id, notes, occurred_at)`, so the
payment columns take their schema defaults. -/
def subscription_update_event (current : Option Subscription)
    (account_id : Int) (new_plan : Plan) (new_status : SubStatus)
    (admin_user_id : Int) (notes : String) (now : Int) : BillingEvent :=
  { account_id := account_id
    event_type := "subscription_update"
    previous_plan :=
      match current with
      | some c => subscription_plan_to_string c.plan
      | none => "none"
    new_plan := subscription_plan_to_string new_plan
    previous_status :=
      match current with
      | some c => subscription_status_to_string c.status
      | none => "none"
    new_status := subscription_status_to_string new_status
    amount_cents := none
    currency := "USD"
    payment_method := none
    external_reference := none
    admin_user_id := admin_user_id
    notes := notes
    occurred_at := now }

/-- `subscription_update` from `src/auth/auth.c` (subscription part): read
the current row, then inside one transaction upsert the subscription and
insert one billing event.  Any failing statement rolls the transaction
back and the function returns `-1`, modelled as `none` (the caller's
state is unchanged).  The C `notes ? notes : ""` default is modelled by
an `Option String` argument. -/
def subscription_update (st : DBState) (account_id : Int) (new_plan : Plan)
    (new_status : SubStatus) (valid_until : Int) (admin_user_id : Int)
    (notes : Option String) (now : Int) (fail : StoreFailure) :
    Option DBState :=
  let current := subscription_get_by_account st account_id
  let nts := notes.getD ""
  if fail.upsert_fails then none
  else if fail.event_insert_fails then none
  else
    some { subs := subscription_upsert_rows st current.isSome account_id
                     new_plan new_status valid_until nts now
           events := st.events ++
             [subscription_update_event current account_id new_plan
                new_status admin_user_id nts now] }

/-- `subscription_update` as seen by its caller: on success the committed
state, on failure the transaction is rolled back, so the prior state
stands and the call reports failure (`false`). -/
def subscription_update_run (st : DBState) (account_id : Int)
    (new_plan : Plan) (new_status : SubStatus) (valid_until : Int)
    (admin_user_id : Int) (notes : Option String) (now : Int)
    (fail : StoreFailure) : DBState × Bool :=
  match subscription_update st account_id new_plan new_status valid_until
      admin_user_id notes now fail with
  | some st' => (st', true)
  | none => (st, false)

/-- `subscription_create` from `src/auth/auth.c` (subscription part):
initial subscription, one year of validity. -/
def subscription_create (st : DBState) (account_id : Int) (plan : Plan)
    (now : Int) (fail : StoreFailure) : Option DBState :=
  subscription_update st account_id plan SubStatus.active
    (now + 365 * 24 * 60 * 60) 0 (some "Initial subscription") now fail

/-- `billing_log_event` from `src/billing/admin.c`: a single `INSERT` into
`billing_events` binding every column; `NULL` string arguments default as
in the C (`?:` with `""`, currency with `"USD"`).  `fail = true` models
the insert failing, in which case no row is added. -/
def billing_log_event (st : DBState) (account_id : Int) (event_type : String)
    (previous_plan new_plan previous_status new_status : Option String)
    (amount_cents : Int) (currency : Option String)
    (payment_method external_reference : Option String)
    (admin_user_id : Int) (notes : Option String) (now : Int)
    (fail : Bool) : Option DBState :=
  if fail then none
  else
    some { st with events := st.events ++
      [{ account_id := account_id
         event_type := event_type
         previous_plan := previous_plan.getD ""
         new_plan := new_plan.getD ""
         previous_status := previous_status.getD ""
         new_status := new_status.getD ""
         amount_cents := some amount_cents
         currency := currency.getD "USD"
         payment_method := some (payment_method.getD "")
         external_reference := some (external_reference.getD "")
         admin_user_id := admin_user_id
         notes := notes.getD ""
         occurred_at := now }] }

/-- `billing_mark_as_paid` from `src/billing/admin.c`: compute
`valid_until = now + duration_days * 24 * 60 * 60`, call
`subscription_update` with status `active`, then call `billing_log_event`
for a separate `payment_received` row.  The result of `billing_log_event`
is not checked by the C code, so a failed payment-event insert still
yields overall success with only the update committed. -/
def billing_mark_as_paid (st : DBState) (account_id : Int) (plan : Plan)
    (duration_days : Int) (amount_cents : Int)
    (payment_method external_reference : Option String)
    (admin_user_id : Int) (notes : Option String) (now : Int)
    (fail : StoreFailure) (payment_event_fails : Bool) : Option DBState :=
  let valid_until := now + duration_days * 24 * 60 * 60
  match subscription_update st account_id plan SubStatus.active valid_until
      admin_user_id notes now fail with
  | none => none
  | some st1 =>
      some ((billing_log_event st1 account_id "payment_received"
        none (some (subscription_plan_to_string plan))
        none (some (subscription_status_to_string SubStatus.active))
        amount_cents (some "USD") payment_method external_reference
        admin_user_id notes now payment_event_fails).getD st1)

/-- `feature_t` from `src/billing/subscription.h` (entitlement part). -/
inductive Feature
  | basicReports
  | advancedReports
  | extendedDateRange
  | csvExport
  | reportGrouping
  | apiAccess
  | prioritySupport
deriving DecidableEq, Repr

/-- `entitlement_has_feature` from `src/billing/subscription.h`
(entitlement part): no subscription row or an invalid one denies every
feature; otherwise the static plan→feature map decides. -/
def entitlement_has_feature (st : DBState) (account_id : Int)
    (feature : Feature) (now : Int) : Bool :=
  match subscription_get_by_account st account_id with
  | none => false
  | some sub =>
      if !subscription_is_valid sub now then false
      else
        match sub.plan with
        | .free => feature == Feature.basicReports
        | .pro => feature != Feature.prioritySupport
        | .enterprise => true

/-! ## Session manager (`src/auth/session.c`) -/

/-- One row of the `sessions` table (`session_t`).  The token is kept as
the raw character sequence the client presents. -/
structure Session where
  user_id : Int
  token : List Char
  created_at : Int
  expires_at : Int
  last_activity_at : Int
  ip_address : String
  user_agent : String
deriving DecidableEq, Repr

/-- The slice of the `users` table that `session_validate` joins. -/
structure User where
  id : Int
  account_id : Int
  email : String
  role : String
  is_active : Bool
deriving DecidableEq, Repr

/-- The session-relevant slice of the database. -/
structure AuthState where
  sessions : List Session
  users : List User
deriving DecidableEq, Repr

/-- The context `session_validate` loads into the request on success. -/
structure UserContext where
  user_id : Int
  account_id : Int
  email : String
  role : String
deriving DecidableEq, Repr

/-- `SESSION_DURATION_SECONDS` (7 days). -/
def SESSION_DURATION_SECONDS : Int := 86400 * 7

/-- `SESSION_INACTIVITY_SECONDS` (1 day). -/
def SESSION_INACTIVITY_SECONDS : Int := 86400 * 1

/-- The join in `session_validate`: `FROM sessions s JOIN users u ON
s.user_id = u.id WHERE s.token = ? AND u.is_active = 1`, first row. -/
def session_lookup (st : AuthState) (token : List Char) :
    Option (Session × User) :=
  match st.sessions.find? (fun s => s.token == token) with
  | none => none
  | some s =>
      match st.users.find? (fun u => u.id == s.user_id && u.is_active) with
      | none => none
      | some u => some (s, u)

/-- `session_update_activity`: `UPDATE sessions SET last_activity_at = ?
WHERE token = ?`. -/
def session_update_activity (st : AuthState) (token : List Char)
    (now : Int) : AuthState :=
  { st with sessions := st.sessions.map (fun s =>
      if s.token == token then { s with last_activity_at := now } else s) }

/-- `session_validate` from `src/auth/session.c`: `NULL` token fails; then
the join lookup; then the absolute-expiry check `now > expires_at`; then
the inactivity check `now - last_activity_at > SESSION_INACTIVITY_SECONDS`;
on success the user context is loaded and `last_activity_at` set to
`now`. -/
def session_validate (st : AuthState) (token : Option (List Char))
    (now : Int) : Option UserContext × AuthState :=
  match token with
  | none => (none, st)
  | some tok =>
      match session_lookup st tok with
      | none => (none, st)
      | some (s, u) =>
          if now > s.expires_at then (none, st)
          else if now - s.last_activity_at > SESSION_INACTIVITY_SECONDS then
            (none, st)
          else
            (some { user_id := u.id, account_id := u.account_id,
                    email := u.email, role := u.role },
             session_update_activity st tok now)

/-! ## Router (`src/core/router.c`) -/

/-- `http_method_t` from `src/core/request.h`. -/
inductive HttpMethod
  | get
  | post
  | head
  | put
  | delete
  | unknown
deriving DecidableEq, Repr

/-- Identifies which handler function a route dispatches to. -/
inductive HandlerTag
  | homePage
  | loginPage
  | loginSubmit
  | logout
  | dashboard
  | billingPage
  | reportsPage
  | reportsGenerate
  | reportsExportCsv
  | adminBillingPage
  | adminMarkPaid
  | adminSearchAccounts
deriving DecidableEq, Repr

/-- `route_t` from `src/core/router.h`. -/
structure Route where
  method : HttpMethod
  path : String
  handler : HandlerTag
  requires_auth : Bool
  requires_admin : Bool
deriving DecidableEq, Repr

/-- The request fields `router_handle_request` reads.  For a request that
was not authenticated, `user_role` is the empty string (the request
struct is `memset` to zero) and `is_authenticated` is `false`. -/
structure RequestCtx where
  method : HttpMethod
  path : String
  user_role : String
  is_authenticated : Bool
deriving DecidableEq, Repr

/-- The four response shapes `router_handle_request` can produce: a
redirect (used with `/login`), the 403 admin-denied page, dispatch to the
matched route's handler, or the 404 page. -/
inductive RouterOutcome
  | redirect (location : String)
  | forbidden
  | dispatched (h : HandlerTag)
  | notFound
deriving DecidableEq, Repr

/-- `router_handle_request` from `src/core/router.c`: first route matching
method and path; redirect to `/login` when `requires_auth` and the
request is unauthenticated; 403 when `requires_admin` and
`user_role != "admin"`; otherwise the handler runs. -/
def router_handle_request (routes : List Route) (req : RequestCtx) :
    RouterOutcome :=
  match routes.find? (fun r =>
      r.method == req.method && r.path == req.path) with
  | none => .notFound
  | some r =>
      if r.requires_auth && !req.is_authenticated then .redirect "/login"
      else if r.requires_admin && req.user_role != "admin" then .forbidden
      else .dispatched r.handler

/-- `routes_register_all` from `src/core/router.c`: the static route
table, in registration order. -/
def routes_register_all : List Route :=
  [ { method := .get, path := "/", handler := .homePage,
      requires_auth := false, requires_admin := false },
    { method := .get, path := "/login", handler := .loginPage,
      requires_auth := false, requires_admin := false },
    { method := .post, path := "/login", handler := .loginSubmit,
      requires_auth := false, requires_admin := false },
    { method := .get, path := "/logout", handler := .logout,
      requires_auth := false, requires_admin := false },
    { method := .get, path := "/dashboard", handler := .dashboard,
      requires_auth := true, requires_admin := false },
    { method := .get, path := "/billing", handler := .billingPage,
      requires_auth := true, requires_admin := false },
    { method := .get, path := "/reports", handler := .reportsPage,
      requires_auth := true, requires_admin := false },
    { method := .post, path := "/reports/generate", handler := .reportsGenerate,
      requires_auth := true, requires_admin := false },
    { method := .get, path := "/reports/export", handler := .reportsExportCsv,
      requires_auth := true, requires_admin := false },
    { method := .get, path := "/admin/billing", handler := .adminBillingPage,
      requires_auth := true, requires_admin := true },
    { method := .post, path := "/admin/billing/mark-paid", handler := .adminMarkPaid,
      requires_auth := true, requires_admin := true },
    { method := .post, path := "/admin/search", handler := .adminSearchAccounts,
      requires_auth := true, requires_admin := true } ]

/-! ## Cookie lookup and the pipeline's identity step
(`src/core/response.c`, `src/core/server.c`) -/

/-- `request_get_cookie` from `src/core/response.c`: cookies are stored as
raw `name=value` character strings; the first entry whose first
`strlen(name)` characters equal `name` followed by `'='` matches, and the
value is everything after the `'='`. -/
def request_get_cookie (cookies : List (List Char)) (name : List Char) :
    Option (List Char) :=
  (cookies.find? (fun c => (name ++ ['=']).isPrefixOf c)).map
    (fun c => c.drop (name.length + 1))

/-- The cookie name the login handler (`handle_login_submit` in
`src/auth/auth.c`) issues the session token under. -/
def login_cookie_name : List Char := "session_token".toList

/-- The cookie entry a client presents after login: exactly the
`name=value` pair set by `response_set_cookie` in `handle_login_submit`. -/
def login_issued_cookie (token : List Char) : List Char :=
  login_cookie_name ++ '=' :: token

/-- The session-resolution step of `server_handle_client` in
`src/core/server.c`: look up the cookie named `"session"` and, when
present, run `session_validate` on it.  Returns the loaded user context
(`none` leaves the request with `is_authenticated` unset) and the
possibly-updated session store. -/
def server_resolve_session (st : AuthState) (cookies : List (List Char))
    (now : Int) : Option UserContext × AuthState :=
  match request_get_cookie cookies ("session".toList) with
  | none => (none, st)
  | some tok => session_validate st (some tok) now

/-! ## Engine operation sequences (for reachability claims) -/

/-- One call into the engine's mutation entry points, with its storage
outcome. -/
inductive EngineOp
  | update (account_id : Int) (new_plan : Plan) (new_status : SubStatus)
      (valid_until : Int) (admin_user_id : Int) (notes : Option String)
      (now : Int) (fail : StoreFailure)
  | create (account_id : Int) (plan : Plan) (now : Int) (fail : StoreFailure)

/-- Apply one engine call; a failed call leaves the store unchanged
(the transaction rolled back). -/
def apply_op (st : DBState) : EngineOp → DBState
  | .update a p s vu adm nts now fail =>
      (subscription_update st a p s vu adm nts now fail).getD st
  | .create a p now fail => (subscription_create st a p now fail).getD st

/-- Apply a sequence of engine calls in order. -/
def apply_ops (st : DBState) (ops : List EngineOp) : DBState :=
  ops.foldl apply_op st

/-- One call into any of the program's ledger-writing entry points:
the engine's `subscription_update`/`subscription_create`, and the admin
route's `billing_mark_as_paid` — the only caller of `billing_log_event` —
each with its storage outcome. -/
inductive LedgerOp
  | update (account_id : Int) (new_plan : Plan) (new_status : SubStatus)
      (valid_until : Int) (admin_user_id : Int) (notes : Option String)
      (now : Int) (fail : StoreFailure)
  | create (account_id : Int) (plan : Plan) (now : Int) (fail : StoreFailure)
  | markPaid (account_id : Int) (plan : Plan)
      (duration_days amount_cents : Int)
      (payment_method external_reference : Option String)
      (admin_user_id : Int) (notes : Option String) (now : Int)
      (fail : StoreFailure) (payment_event_fails : Bool)

/-- Apply one ledger-writing call; a failed call leaves the store
unchanged (the transaction rolled back, or for `markPaid` the update
itself failed before any event was written). -/
def apply_ledger_op (st : DBState) : LedgerOp → DBState
  | .update a p s vu adm nts now fail =>
      (subscription_update st a p s vu adm nts now fail).getD st
  | .create a p now fail => (subscription_create st a p now fail).getD st
  | .markPaid a p dd amt pm ref adm nts now fail pef =>
      (billing_mark_as_paid st a p dd amt pm ref adm nts now fail pef).getD
        st

/-- Apply a sequence of ledger-writing calls in order. -/
def apply_ledger_ops (st : DBState) (ops : List LedgerOp) : DBState :=
  ops.foldl apply_ledger_op st

/-- The billing events of one account, in occurrence order. -/
def account_events (st : DBState) (account_id : Int) : List BillingEvent :=
  st.events.filter (fun e => e.account_id == account_id)

/-- Modelled from the spec: "replaying the full ordered sequence of
BillingEvents for an account, applying each transition in order" — each
event moves the replayed (plan, status) pair to the event's recorded
`new_plan`/`new_status`, starting from no subscription. -/
def replay_events (evs : List BillingEvent) : Option (String × String) :=
  evs.foldl (fun _ ev => some (ev.new_plan, ev.new_status)) none

/-- The replay invariant: for every account, replaying its ledger in
occurrence order yields exactly the (plan, status) pair of its current
subscription row, and `none` exactly when the account has no row. -/
def replay_state_consistent (st : DBState) : Prop :=
  ∀ acc : Int, replay_events (account_events st acc)
    = (subscription_get_by_account st acc).map
        (fun sub => (subscription_plan_to_string sub.plan,
                     subscription_status_to_string sub.status))

/-! ## Concrete fixtures used by counterexamples and witnesses -/

/-- A currently valid free-plan subscription row for account 1. -/
def free_sub : Subscription :=
  { account_id := 1, plan := .free, status := .active, valid_from := 0,
    valid_until := 1000, grace_until := 0, provider := "manual",
    external_id := "", notes := "", created_at := 0, updated_at := 0 }

/-- A store whose only subscription is `free_sub`. -/
def st_free : DBState := { subs := [free_sub], events := [] }

/-- An expired subscription row with no grace period, for account 1. -/
def expired_sub : Subscription :=
  { account_id := 1, plan := .pro, status := .expired, valid_from := 0,
    valid_until := 10, grace_until := 0, provider := "manual",
    external_id := "", notes := "", created_at := 0, updated_at := 0 }

/-- A store whose only subscription is `expired_sub`. -/
def st_expired : DBState := { subs := [expired_sub], events := [] }

/-- A subscription in status `grace_period` whose validity window has
passed but whose `grace_until` lies in the future. -/
def grace_sub : Subscription :=
  { account_id := 1, plan := .pro, status := .gracePeriod, valid_from := 0,
    valid_until := 10, grace_until := 100, provider := "manual",
    external_id := "", notes := "", created_at := 0, updated_at := 0 }

/-- A session row whose absolute expiry is exactly `100` and whose last
activity is also `100`. -/
def sess0 : Session :=
  { user_id := 1, token := "t".toList, created_at := 0, expires_at := 100,
    last_activity_at := 100, ip_address := "", user_agent := "" }

/-- The active user owning `sess0`. -/
def user0 : User :=
  { id := 1, account_id := 5, email := "u@example.com", role := "user",
    is_active := true }

/-- A session store holding exactly `sess0` and `user0`. -/
def stS : AuthState := { sessions := [sess0], users := [user0] }

/-- The committed state of one successful `subscription_update` on the
empty store. -/
def sample_update_state : DBState :=
  (subscription_update db_empty 1 .pro .active 100 7 none 50 noFail).getD
    db_empty

/-- The committed state of one successful `billing_mark_as_paid` on the
empty store. -/
def sample_paid_state : DBState :=
  (billing_mark_as_paid db_empty 1 .pro 30 4900 (some "manual")
    (some "ref") 7 none 1000 noFail false).getD db_empty

/-! ## Helper lemmas about the subscription upsert -/

/-- After the `UPDATE` branch of the upsert, the account's row is the old
row with plan, status, `valid_until`, notes and `updated_at` replaced. -/
theorem find?_upsert_update_self (st : DBState) (a : Int) (c : Subscription)
    (hc : subscription_get_by_account st a = some c) (p : Plan)
    (s : SubStatus) (vu : Int) (nts : String) (now : Int) :
    (subscription_upsert_rows st true a p s vu nts now).find?
        (fun x => x.account_id == a)
      = some { c with plan := p, status := s, valid_until := vu,
                      notes := nts, updated_at := now } := by
  unfold subscription_upsert_rows
  simp only [if_true]
  rw [List.find?_map]
  have hcomp : ((fun x : Subscription => x.account_id == a) ∘ (fun s' : Subscription =>
      if s'.account_id == a then
        { s' with plan := p, status := s, valid_until := vu, notes := nts,
                  updated_at := now }
      else s')) = fun x => x.account_id == a := by
    funext x
    by_cases hx : x.account_id = a <;> simp [Function.comp, hx]
  rw [hcomp]
  unfold subscription_get_by_account at hc
  rw [hc]
  have hca := List.find?_some hc
  simp only [beq_iff_eq] at hca
  simp [hca]

/-- After the `INSERT` branch of the upsert, the account's row is the
fresh row with `valid_from = now` and `grace_until = 0`. -/
theorem find?_upsert_insert_self (st : DBState) (a : Int)
    (hc : subscription_get_by_account st a = none) (p : Plan)
    (s : SubStatus) (vu : Int) (nts : String) (now : Int) :
    (subscription_upsert_rows st false a p s vu nts now).find?
        (fun x => x.account_id == a)
      = some { account_id := a, plan := p, status := s, valid_from := now,
               valid_until := vu, grace_until := 0, provider := "manual",
               external_id := "", notes := nts, created_at := now,
               updated_at := now } := by
  unfold subscription_upsert_rows
  simp only [Bool.false_eq_true, if_false]
  rw [List.find?_append]
  unfold subscription_get_by_account at hc
  rw [hc]
  simp [List.find?]

/-- The `UPDATE` branch of the upsert does not touch other accounts'
rows, as seen through the by-account lookup. -/
theorem find?_upsert_update_other (st : DBState) (a b : Int) (hab : b ≠ a)
    (p : Plan) (s : SubStatus) (vu : Int) (nts : String) (now : Int) :
    (subscription_upsert_rows st true a p s vu nts now).find?
        (fun x => x.account_id == b)
      = st.subs.find? (fun x => x.account_id == b) := by
  unfold subscription_upsert_rows
  simp only [if_true]
  rw [List.find?_map]
  have hcomp : ((fun x : Subscription => x.account_id == b) ∘ (fun s' : Subscription =>
      if s'.account_id == a then
        { s' with plan := p, status := s, valid_until := vu, notes := nts,
                  updated_at := now }
      else s')) = fun x => x.account_id == b := by
    funext x
    by_cases hx : x.account_id = a <;> simp [Function.comp, hx]
  rw [hcomp]
  cases hfind : st.subs.find? (fun x => x.account_id == b) with
  | none => simp
  | some c =>
      have hcb := List.find?_some hfind
      simp only [beq_iff_eq] at hcb
      have : ¬ (c.account_id = a) := by rw [hcb]; exact hab
      simp [Option.map, this]

/-- The `INSERT` branch of the upsert does not touch other accounts'
rows, as seen through the by-account lookup. -/
theorem find?_upsert_insert_other (st : DBState) (a b : Int) (hab : b ≠ a)
    (p : Plan) (s : SubStatus) (vu : Int) (nts : String) (now : Int) :
    (subscription_upsert_rows st false a p s vu nts now).find?
        (fun x => x.account_id == b)
      = st.subs.find? (fun x => x.account_id == b) := by
  unfold subscription_upsert_rows
  simp only [Bool.false_eq_true, if_false]
  rw [List.find?_append]
  have : [{ account_id := a, plan := p, status := s, valid_from := now,
            valid_until := vu, grace_until := 0, provider := "manual",
            external_id := "", notes := nts, created_at := now,
            updated_at := now }].find? (fun x => x.account_id == b)
      = (none : Option Subscription) := by
    have hba : (a == b) = false := beq_eq_false_iff_ne.mpr (Ne.symm hab)
    simp [List.find?, hba]
  rw [this]
  exact Option.or_none

/-- A successful `subscription_update` means neither statement failed and
the committed state is the upserted rows plus exactly the one new ledger
row. -/
theorem subscription_update_some_iff (st : DBState) (a : Int) (p : Plan)
    (s : SubStatus) (vu adm : Int) (nts : Option String) (now : Int)
    (fail : StoreFailure) (st' : DBState) :
    subscription_update st a p s vu adm nts now fail = some st' ↔
      (fail.upsert_fails = false ∧ fail.event_insert_fails = false ∧
       st' = { subs := subscription_upsert_rows st
                 (subscription_get_by_account st a).isSome a p s vu
                 (nts.getD "") now
               events := st.events ++
                 [subscription_update_event (subscription_get_by_account st a)
                    a p s adm (nts.getD "") now] }) := by
  unfold subscription_update
  by_cases h1 : fail.upsert_fails <;>
    by_cases h2 : fail.event_insert_fails <;>
      simp [h1, h2, eq_comm]

/-! ## C3 — validity check -/

/-- Counterexample to claim C3: a subscription in status `grace_period`
with `grace_until` set in the future (and `now ≤ grace_until`) is NOT
valid once `now` has passed `valid_until` — the code routes
`grace_period` through the `[valid_from, valid_until]` window and only
consults `grace_until` for `expired`/`cancelled`. -/
theorem is_valid_grace_status_counterexample :
    subscription_is_valid grace_sub 50 = false ∧
    grace_sub.status = SubStatus.gracePeriod ∧
    0 < grace_sub.grace_until ∧ (50 : Int) ≤ grace_sub.grace_until := by
  decide

/-- C3 (amended): `subscription_is_valid sub now` is `true` exactly when
status is `active` or `grace_period` and `valid_from ≤ now ≤ valid_until`,
OR status is `expired` or `cancelled`, `grace_until` is set (positive) and
`now ≤ grace_until`.  In particular an `expired` subscription with
`grace_until` in the future is valid and becomes invalid once `now`
passes `grace_until`, with no write involved. -/
theorem is_valid_characterization (sub : Subscription) (now : Int) :
    subscription_is_valid sub now = true ↔
      (((sub.status = SubStatus.active ∨ sub.status = SubStatus.gracePeriod) ∧
         sub.valid_from ≤ now ∧ now ≤ sub.valid_until) ∨
       ((sub.status = SubStatus.expired ∨ sub.status = SubStatus.cancelled) ∧
         0 < sub.grace_until ∧ now ≤ sub.grace_until)) := by
  unfold subscription_is_valid subscription_grace_check
  cases h : sub.status <;> simp [h]

/-! ## C4 — entitlement fails closed -/

/-- Counterexample to claim C4: with no subscription row at all, the
requested feature is denied even when it belongs to the free tier —
`entitlement_has_feature` returns `0` outright instead of granting
free-tier entitlements.  (Under a valid free subscription the same
feature IS granted, showing `basicReports` is free-tier.) -/
theorem entitlement_free_tier_counterexample :
    entitlement_has_feature db_empty 1 Feature.basicReports 500 = false ∧
    entitlement_has_feature st_free 1 Feature.basicReports 500 = true := by
  decide

/-- C4 (amended): when the account has no subscription row, or its row is
not currently valid, the entitlement check denies EVERY feature — it does
not fall back to free-tier entitlements. -/
theorem entitlement_fails_closed_denies_all (st : DBState) (account_id : Int)
    (feature : Feature) (now : Int)
    (h : ∀ sub, subscription_get_by_account st account_id = some sub →
      subscription_is_valid sub now = false) :
    entitlement_has_feature st account_id feature now = false := by
  unfold entitlement_has_feature
  cases hc : subscription_get_by_account st account_id with
  | none => rfl
  | some sub => simp [h sub hc]

/-- Witness for C4's amended theorem at a concrete store with an expired,
grace-free subscription. -/
theorem entitlement_fails_closed_denies_all_witness :
    entitlement_has_feature st_expired 1 Feature.csvExport 500 = false :=
  entitlement_fails_closed_denies_all st_expired 1 Feature.csvExport 500
    (fun sub hs => by
      rw [show subscription_get_by_account st_expired 1 = some expired_sub
            from rfl] at hs
      cases hs
      decide)

/-! ## C9 — cookie-name mismatch between login and the pipeline -/

/-- C9: the pipeline's identity step looks up the cookie named
`"session"`, while login issues the token under `"session_token"`; for a
request presenting only cookies of the login-issued shape, the session
lookup finds nothing, so the request proceeds unauthenticated and the
session store is untouched. -/
theorem pipeline_ignores_login_cookie (st : AuthState) (now : Int)
    (toks : List (List Char)) :
    server_resolve_session st (toks.map login_issued_cookie) now
      = (none, st) := by
  unfold server_resolve_session request_get_cookie
  rw [List.find?_map]
  have : (((fun c => (("session".toList) ++ ['=']).isPrefixOf c) ∘
      login_issued_cookie)) = fun _ => false := by
    funext tok
    rfl
  rw [this]
  have hnone : toks.find? (fun _ => false) = none :=
    List.find?_eq_none.mpr (fun x _ => by simp)
  rw [hnone]
  rfl

/-! ## C1 — subscription update commits atomically with its ledger row -/

/-- C1: a successful `subscription_update` appends exactly one billing
event, whose `new_plan`/`new_status` are exactly the plan and status of
the resulting subscription row; and whenever either in-transaction
statement fails, the operation rolls back: the caller observes the prior
state unchanged (no subscription change, no billing event). -/
theorem subscription_update_atomic (st : DBState) (a : Int) (p : Plan)
    (s : SubStatus) (vu adm : Int) (nts : Option String) (now : Int)
    (fail : StoreFailure) (st' : DBState)
    (h : subscription_update st a p s vu adm nts now fail = some st') :
    (∃ sub ev, st'.events = st.events ++ [ev] ∧
       subscription_get_by_account st' a = some sub ∧
       ev.new_plan = subscription_plan_to_string sub.plan ∧
       ev.new_status = subscription_status_to_string sub.status ∧
       ev.account_id = a) ∧
    (∀ fail2, subscription_update st a p s vu adm nts now fail2 = none →
      subscription_update_run st a p s vu adm nts now fail2 = (st, false)) := by
  constructor
  · rw [subscription_update_some_iff] at h
    obtain ⟨-, -, hst⟩ := h
    subst hst
    cases hc : subscription_get_by_account st a with
    | some c =>
        refine ⟨{ c with plan := p, status := s, valid_until := vu,
                         notes := nts.getD "", updated_at := now },
                subscription_update_event (some c)
                  a p s adm (nts.getD "") now, rfl, ?_, rfl, rfl, rfl⟩
        exact find?_upsert_update_self st a c hc p s vu (nts.getD "") now
    | none =>
        refine ⟨{ account_id := a, plan := p, status := s, valid_from := now,
                  valid_until := vu, grace_until := 0, provider := "manual",
                  external_id := "", notes := nts.getD "", created_at := now,
                  updated_at := now },
                subscription_update_event none
                  a p s adm (nts.getD "") now, rfl, ?_, rfl, rfl, rfl⟩
        exact find?_upsert_insert_self st a hc p s vu (nts.getD "") now
  · intro fail2 h2
    unfold subscription_update_run
    rw [h2]

/-- Witness for C1 at a concrete successful update on the empty store. -/
theorem subscription_update_atomic_witness :
    ∃ sub ev, sample_update_state.events = db_empty.events ++ [ev] ∧
      subscription_get_by_account sample_update_state 1 = some sub ∧
      ev.new_plan = subscription_plan_to_string sub.plan ∧
      ev.new_status = subscription_status_to_string sub.status ∧
      ev.account_id = 1 :=
  (subscription_update_atomic db_empty 1 .pro .active 100 7 none 50 noFail
    sample_update_state rfl).1

/-! ## C2 — markPaid writes TWO ledger rows, not one -/

/-- Counterexample to claim C2: one successful `billing_mark_as_paid`
appends two billing events, not one — the `subscription_update` event
(which carries no amount) and a separate `payment_received` event
carrying the amount.  No single event carries both the plan transition of
the upsert and the payment amount. -/
theorem mark_as_paid_single_event_counterexample :
    billing_mark_as_paid db_empty 1 Plan.pro 30 4900 (some "manual")
        (some "ref") 7 none 1000 noFail false = some sample_paid_state ∧
    sample_paid_state.events.length = 2 ∧
    sample_paid_state.events.map
        (fun e => (e.event_type, e.new_plan, e.amount_cents))
      = [("subscription_update", "pro", none),
         ("payment_received", "pro", some 4900)] := by
  decide

/-- C2 (amended): a successful `billing_mark_as_paid` sets
`valid_until = now + duration_days` (in seconds), upserts the
subscription with status `active`, and appends exactly TWO billing
events: the update's own ledger row (without the amount) followed by a
separate `payment_received` row carrying the amount in cents. -/
theorem mark_as_paid_two_ledger_rows (st : DBState) (a : Int) (p : Plan)
    (dd amt : Int) (pm ref : Option String) (adm : Int)
    (nts : Option String) (now : Int) (st' : DBState)
    (h : billing_mark_as_paid st a p dd amt pm ref adm nts now noFail false
      = some st') :
    (∃ sub, subscription_get_by_account st' a = some sub ∧
       sub.plan = p ∧ sub.status = SubStatus.active ∧
       sub.valid_until = now + dd * 24 * 60 * 60) ∧
    (∃ ev1 ev2, st'.events = st.events ++ [ev1, ev2] ∧
       ev1.event_type = "subscription_update" ∧
       ev1.new_plan = subscription_plan_to_string p ∧
       ev1.amount_cents = none ∧
       ev2.event_type = "payment_received" ∧
       ev2.new_plan = subscription_plan_to_string p ∧
       ev2.new_status = "active" ∧
       ev2.amount_cents = some amt) := by
  simp only [billing_mark_as_paid] at h
  have hs : subscription_update st a p SubStatus.active
      (now + dd * 24 * 60 * 60) adm nts now noFail
      = some { subs := subscription_upsert_rows st
                 (subscription_get_by_account st a).isSome a p
                 SubStatus.active (now + dd * 24 * 60 * 60) (nts.getD "") now
               events := st.events ++
                 [subscription_update_event (subscription_get_by_account st a)
                    a p SubStatus.active adm (nts.getD "") now] } := by
    rw [subscription_update_some_iff]
    exact ⟨rfl, rfl, rfl⟩
  rw [hs] at h
  simp only [billing_log_event, Bool.false_eq_true, if_false,
    Option.getD_some, Option.some.injEq] at h
  subst h
  constructor
  · cases hc : subscription_get_by_account st a with
    | some c =>
        refine ⟨{ c with plan := p, status := SubStatus.active,
                         valid_until := now + dd * 24 * 60 * 60,
                         notes := nts.getD "", updated_at := now },
                ?_, rfl, rfl, rfl⟩
        exact find?_upsert_update_self st a c hc p SubStatus.active
          (now + dd * 24 * 60 * 60) (nts.getD "") now
    | none =>
        refine ⟨{ account_id := a, plan := p, status := SubStatus.active,
                  valid_from := now,
                  valid_until := now + dd * 24 * 60 * 60, grace_until := 0,
                  provider := "manual", external_id := "",
                  notes := nts.getD "", created_at := now,
                  updated_at := now }, ?_, rfl, rfl, rfl⟩
        exact find?_upsert_insert_self st a hc p SubStatus.active
          (now + dd * 24 * 60 * 60) (nts.getD "") now
  · refine ⟨subscription_update_event (subscription_get_by_account st a)
        a p SubStatus.active adm (nts.getD "") now,
      { account_id := a, event_type := "payment_received",
        previous_plan := (none : Option String).getD "",
        new_plan := subscription_plan_to_string p,
        previous_status := (none : Option String).getD "",
        new_status := subscription_status_to_string SubStatus.active,
        amount_cents := some amt, currency := "USD",
        payment_method := some (pm.getD ""),
        external_reference := some (ref.getD ""), admin_user_id := adm,
        notes := nts.getD "", occurred_at := now },
      ?_, rfl, rfl, rfl, rfl, rfl, rfl, rfl⟩
    simp [List.append_assoc]

/-- Witness for C2's amended theorem at a concrete `markPaid` on the
empty store. -/
theorem mark_as_paid_two_ledger_rows_witness :
    ∃ sub, subscription_get_by_account sample_paid_state 1 = some sub ∧
      sub.plan = Plan.pro ∧ sub.status = SubStatus.active ∧
      sub.valid_until = 1000 + 30 * 24 * 60 * 60 :=
  (mark_as_paid_two_ledger_rows db_empty 1 .pro 30 4900 (some "manual")
    (some "ref") 7 none 1000 sample_paid_state rfl).1

/-! ## C5 — session validation checks (strict comparisons) -/

/-- Counterexample to claim C5: at `now` exactly equal to `expires_at`
(claim: Invalid once `now ≥ expires_at`), the code still accepts the
session — its test is the strict `now > expires_at`. -/
theorem validate_boundary_counterexample :
    (session_validate stS (some ("t".toList)) 100).1.isSome = true ∧
    sess0.expires_at = 100 := by
  decide

/-- `session_validate` on a present token, with the outer `NULL` check
discharged. -/
theorem session_validate_some (st : AuthState) (tok : List Char)
    (now : Int) :
    session_validate st (some tok) now =
      (match session_lookup st tok with
       | none => (none, st)
       | some (s, u) =>
           if now > s.expires_at then (none, st)
           else if now - s.last_activity_at > SESSION_INACTIVITY_SECONDS then
             (none, st)
           else (some { user_id := u.id, account_id := u.account_id,
                        email := u.email, role := u.role },
                 session_update_activity st tok now)) := rfl

/-- `session_validate` when the token is not in the session store (or its
user is inactive or missing): Invalid. -/
theorem session_validate_fst_none (st : AuthState) (tok : List Char)
    (now : Int) (hl : session_lookup st tok = none) :
    (session_validate st (some tok) now).1 = none := by
  simp [session_validate_some, hl]

/-- `session_validate` when the token joins a session and an active user:
the two timeout checks decide the result. -/
theorem session_validate_fst_some (st : AuthState) (tok : List Char)
    (now : Int) (s : Session) (u : User)
    (hl : session_lookup st tok = some (s, u)) :
    (session_validate st (some tok) now).1 =
      (if now > s.expires_at then none
       else if now - s.last_activity_at > SESSION_INACTIVITY_SECONDS then
         none
       else some { user_id := u.id, account_id := u.account_id,
                   email := u.email, role := u.role }) := by
  by_cases h1 : now > s.expires_at
  · simp [session_validate_some, hl, h1]
  · by_cases h2 : now - s.last_activity_at > SESSION_INACTIVITY_SECONDS
    · simp [session_validate_some, hl, h1, h2]
    · simp [session_validate_some, hl, h1, h2]

/-- C5 (amended): `validate` returns Invalid when no session row with the
token joins an active user; when such a row exists, it returns Invalid
exactly when `now > expires_at` (strictly) or
`now - last_activity_at > inactivity_window` (strictly); otherwise it
succeeds and loads the owning user's id, account id, email and role.  At
`now = expires_at`, or at inactivity exactly equal to the window, the
session is still accepted. -/
theorem session_validate_checks (st : AuthState) (tok : List Char)
    (now : Int) :
    (session_lookup st tok = none →
      (session_validate st (some tok) now).1 = none) ∧
    (∀ s u, session_lookup st tok = some (s, u) →
      ((session_validate st (some tok) now).1 = none ↔
        (now > s.expires_at ∨
         now - s.last_activity_at > SESSION_INACTIVITY_SECONDS))) ∧
    (∀ s u, session_lookup st tok = some (s, u) →
      now ≤ s.expires_at →
      now - s.last_activity_at ≤ SESSION_INACTIVITY_SECONDS →
      (session_validate st (some tok) now).1 =
        some { user_id := u.id, account_id := u.account_id,
               email := u.email, role := u.role }) := by
  refine ⟨?_, ?_, ?_⟩
  · intro hl
    exact session_validate_fst_none st tok now hl
  · intro s u hl
    rw [session_validate_fst_some st tok now s u hl]
    by_cases h1 : now > s.expires_at
    · simp [h1]
    · by_cases h2 : now - s.last_activity_at > SESSION_INACTIVITY_SECONDS
      · simp [h1, h2]
      · simp [h1, h2]
  · intro s u hl h1 h2
    rw [session_validate_fst_some st tok now s u hl]
    rw [if_neg (not_lt.mpr h1), if_neg (not_lt.mpr h2)]

/-- Witness for C5's amended theorem: at a concrete store, a fresh enough
request loads the user context. -/
theorem session_validate_checks_witness :
    (session_validate stS (some ("t".toList)) 50).1 =
      some { user_id := user0.id, account_id := user0.account_id,
             email := user0.email, role := user0.role } :=
  (session_validate_checks stS ("t".toList) 50).2.2 sess0 user0 (by rfl)
    (by decide) (by decide)

/-! ## C6 — admin routes: forbidden for non-admins, login redirect when
unauthenticated -/

/-- Evaluation of `router_handle_request` once the matching route is
known. -/
theorem router_handle_request_eval (routes : List Route) (req : RequestCtx)
    (r : Route)
    (hfind : routes.find? (fun rt =>
        rt.method == req.method && rt.path == req.path) = some r) :
    router_handle_request routes req =
      (if r.requires_auth && !req.is_authenticated then
        RouterOutcome.redirect "/login"
      else if r.requires_admin && req.user_role != "admin" then
        RouterOutcome.forbidden
      else RouterOutcome.dispatched r.handler) := by
  unfold router_handle_request
  rw [hfind]

/-- Outcomes on a route that requires both a session and the admin role,
given that the route table resolves the request to that route. -/
theorem router_admin_route_outcomes (routes : List Route) (r : Route)
    (role : String)
    (hfind : routes.find? (fun rt =>
        rt.method == r.method && rt.path == r.path) = some r)
    (hauth : r.requires_auth = true) (hadmin : r.requires_admin = true) :
    (role ≠ "admin" →
      router_handle_request routes
          { method := r.method, path := r.path, user_role := role,
            is_authenticated := true }
        = RouterOutcome.forbidden) ∧
    (router_handle_request routes
        { method := r.method, path := r.path, user_role := role,
          is_authenticated := false }
      = RouterOutcome.redirect "/login") := by
  constructor
  · intro hrole
    rw [router_handle_request_eval routes _ r hfind]
    simp [hauth, hadmin, hrole]
  · rw [router_handle_request_eval routes _ r hfind]
    simp [hauth]

/-- C6: for every registered route whose policy requires the admin role,
an authenticated request with a non-admin role gets the 403 forbidden
response (never a redirect), and an unauthenticated request gets the
redirect to `/login`. -/
theorem admin_route_access_control (r : Route)
    (hr : r ∈ routes_register_all) (hadmin : r.requires_admin = true)
    (role : String) :
    (role ≠ "admin" →
      router_handle_request routes_register_all
          { method := r.method, path := r.path, user_role := role,
            is_authenticated := true }
        = RouterOutcome.forbidden) ∧
    (router_handle_request routes_register_all
        { method := r.method, path := r.path, user_role := role,
          is_authenticated := false }
      = RouterOutcome.redirect "/login") := by
  have h3 : r = { method := .get, path := "/admin/billing",
                  handler := .adminBillingPage, requires_auth := true,
                  requires_admin := true } ∨
      r = { method := .post, path := "/admin/billing/mark-paid",
            handler := .adminMarkPaid, requires_auth := true,
            requires_admin := true } ∨
      r = { method := .post, path := "/admin/search",
            handler := .adminSearchAccounts, requires_auth := true,
            requires_admin := true } := by
    simp only [routes_register_all] at hr
    fin_cases hr <;> first | exact absurd hadmin (by decide) | decide
  rcases h3 with rfl | rfl | rfl
  · exact router_admin_route_outcomes routes_register_all _ role
      (by rfl) rfl rfl
  · exact router_admin_route_outcomes routes_register_all _ role
      (by rfl) rfl rfl
  · exact router_admin_route_outcomes routes_register_all _ role
      (by rfl) rfl rfl

/-- Witness for C6 at the concrete `GET /admin/billing` route with a
non-admin authenticated user. -/
theorem admin_route_access_control_witness :
    router_handle_request routes_register_all
        { method := HttpMethod.get, path := "/admin/billing",
          user_role := "user", is_authenticated := true }
      = RouterOutcome.forbidden :=
  (admin_route_access_control
    { method := HttpMethod.get, path := "/admin/billing",
      handler := HandlerTag.adminBillingPage, requires_auth := true,
      requires_admin := true } (by decide) rfl "user").1 (by decide)

/-! ## C8 — successful validation only touches `last_activity_at` -/

/-- On success, the state side of `session_validate` is exactly
`session_update_activity`. -/
theorem session_validate_success_state (st : AuthState) (tok : List Char)
    (now : Int) (h : (session_validate st (some tok) now).1.isSome = true) :
    (session_validate st (some tok) now).2 =
      session_update_activity st tok now := by
  rw [session_validate_some] at h ⊢
  cases hl : session_lookup st tok with
  | none => rw [hl] at h; simp at h
  | some su =>
      obtain ⟨s, u⟩ := su
      rw [hl] at h
      by_cases h1 : now > s.expires_at
      · simp [h1] at h
      · by_cases h2 : now - s.last_activity_at > SESSION_INACTIVITY_SECONDS
        · simp [h1, h2] at h
        · simp [h1, h2]

/-- C8: a successful `session_validate` leaves the user table untouched
and, for every session row, changes nothing but `last_activity_at`: the
rows with the validated token get `last_activity_at = now`, all other
rows are untouched, and no row's token, user id, creation time or
absolute expiry changes. -/
theorem session_validate_frame (st : AuthState) (tok : List Char)
    (now : Int) (h : (session_validate st (some tok) now).1.isSome = true) :
    (session_validate st (some tok) now).2.users = st.users ∧
    (session_validate st (some tok) now).2.sessions.length
      = st.sessions.length ∧
    (∀ i : Nat, ((session_validate st (some tok) now).2.sessions[i]?.map
        (fun s => (s.token, s.user_id, s.created_at, s.expires_at)))
      = st.sessions[i]?.map
          (fun s => (s.token, s.user_id, s.created_at, s.expires_at))) ∧
    (∀ i : Nat, ∀ s : Session, st.sessions[i]? = some s →
      (s.token == tok) = true →
      (session_validate st (some tok) now).2.sessions[i]?.map
          Session.last_activity_at = some now) ∧
    (∀ i : Nat, ∀ s : Session, st.sessions[i]? = some s →
      (s.token == tok) = false →
      (session_validate st (some tok) now).2.sessions[i]? = some s) := by
  rw [session_validate_success_state st tok now h]
  unfold session_update_activity
  refine ⟨rfl, by simp, ?_, ?_, ?_⟩
  · intro i
    simp only [List.getElem?_map]
    cases st.sessions[i]? with
    | none => rfl
    | some s => by_cases hs : s.token = tok <;> simp [hs]
  · intro i s hi hs
    have hs2 : s.token = tok := by simpa using hs
    simp [List.getElem?_map, hi, hs2]
  · intro i s hi hs
    have hs2 : ¬ s.token = tok := by simpa using hs
    simp [List.getElem?_map, hi, hs2]

/-- Witness for C8 at the concrete one-session store: the user table is
unchanged by a successful validation. -/
theorem session_validate_frame_witness :
    (session_validate stS (some ("t".toList)) 50).2.users = stS.users :=
  (session_validate_frame stS ("t".toList) 50 (by decide)).1

/-! ## C10 — no reachable subscription ever has a grace period -/

/-- A successful `subscription_update` preserves "every row has
`grace_until = 0`": the `UPDATE` branch never writes that column and the
`INSERT` branch binds it to `0`. -/
theorem grace_zero_update (st st' : DBState) (a : Int) (p : Plan)
    (s : SubStatus) (vu adm : Int) (nts : Option String) (now : Int)
    (fail : StoreFailure)
    (hinv : ∀ sub ∈ st.subs, sub.grace_until = 0)
    (h : subscription_update st a p s vu adm nts now fail = some st') :
    ∀ sub ∈ st'.subs, sub.grace_until = 0 := by
  rw [subscription_update_some_iff] at h
  obtain ⟨-, -, hst⟩ := h
  subst hst
  intro sub hsub
  unfold subscription_upsert_rows at hsub
  by_cases hc : (subscription_get_by_account st a).isSome
  · rw [if_pos hc] at hsub
    rcases List.mem_map.mp hsub with ⟨x, hx, rfl⟩
    by_cases hxa : x.account_id = a <;> simp [hxa, hinv x hx]
  · rw [if_neg hc] at hsub
    rcases List.mem_append.mp hsub with hx | hx
    · exact hinv sub hx
    · rcases List.mem_singleton.mp hx with rfl
      rfl

/-- The grace-free invariant is preserved by every engine call, including
failed (rolled-back) ones. -/
theorem grace_zero_apply_op (st : DBState) (op : EngineOp)
    (hinv : ∀ sub ∈ st.subs, sub.grace_until = 0) :
    ∀ sub ∈ (apply_op st op).subs, sub.grace_until = 0 := by
  cases op with
  | update a p s vu adm nts now fail =>
      show ∀ sub ∈ ((subscription_update st a p s vu adm nts now
          fail).getD st).subs, sub.grace_until = 0
      cases h : subscription_update st a p s vu adm nts now fail with
      | none => simpa using hinv
      | some st2 =>
          simpa using grace_zero_update st st2 a p s vu adm nts now fail
            hinv h
  | create a p now fail =>
      show ∀ sub ∈ ((subscription_update st a p SubStatus.active
          (now + 365 * 24 * 60 * 60) 0 (some "Initial subscription") now
          fail).getD st).subs, sub.grace_until = 0
      cases h : subscription_update st a p SubStatus.active
          (now + 365 * 24 * 60 * 60) 0 (some "Initial subscription") now
          fail with
      | none => simpa using hinv
      | some st2 =>
          simpa using grace_zero_update st st2 a p SubStatus.active
            (now + 365 * 24 * 60 * 60) 0 (some "Initial subscription") now
            fail hinv h

/-- The grace-free invariant holds along any engine call sequence. -/
theorem grace_zero_apply_ops (ops : List EngineOp) (st : DBState)
    (hinv : ∀ sub ∈ st.subs, sub.grace_until = 0) :
    ∀ sub ∈ (apply_ops st ops).subs, sub.grace_until = 0 := by
  induction ops generalizing st with
  | nil => exact hinv
  | cons op ops ih =>
      have hstep := grace_zero_apply_op st op hinv
      have : apply_ops st (op :: ops) = apply_ops (apply_op st op) ops := rfl
      rw [this]
      exact ih (apply_op st op) hstep

/-- C10: in every store reachable from the empty store solely through
`subscription_create`/`subscription_update`, every subscription row has
`grace_until = 0`, so the grace-period test of the validity check can
never evaluate to true — grace-period access is dead code for
engine-written data. -/
theorem reachable_grace_until_zero (ops : List EngineOp)
    (sub : Subscription) (hsub : sub ∈ (apply_ops db_empty ops).subs) :
    sub.grace_until = 0 ∧
    ∀ now : Int, subscription_grace_check sub now = false := by
  have h0 : sub.grace_until = 0 :=
    grace_zero_apply_ops ops db_empty (by intro s hs; cases hs) sub hsub
  refine ⟨h0, ?_⟩
  intro now
  unfold subscription_grace_check
  rw [h0]
  simp

/-- Witness for C10 at the store produced by one `subscription_create`. -/
theorem reachable_grace_until_zero_witness :
    (({ account_id := 1, plan := Plan.pro, status := SubStatus.active,
        valid_from := 0, valid_until := 31536000, grace_until := 0,
        provider := "manual", external_id := "",
        notes := "Initial subscription", created_at := 0,
        updated_at := 0 } : Subscription) ∈
      (apply_ops db_empty [EngineOp.create 1 Plan.pro 0 noFail]).subs) ∧
    (({ account_id := 1, plan := Plan.pro, status := SubStatus.active,
        valid_from := 0, valid_until := 31536000, grace_until := 0,
        provider := "manual", external_id := "",
        notes := "Initial subscription", created_at := 0,
        updated_at := 0 } : Subscription).grace_until = 0 ∧
     ∀ now : Int, subscription_grace_check
        { account_id := 1, plan := Plan.pro, status := SubStatus.active,
          valid_from := 0, valid_until := 31536000, grace_until := 0,
          provider := "manual", external_id := "",
          notes := "Initial subscription", created_at := 0,
          updated_at := 0 } now = false) :=
  ⟨by decide,
   reachable_grace_until_zero [EngineOp.create 1 Plan.pro 0 noFail] _
     (by decide)⟩

/-! ## C7 — ledger replay -/

/-- Replaying a ledger that ends in `e` lands on `e`'s recorded
transition. -/
theorem replay_events_append_single (l : List BillingEvent)
    (e : BillingEvent) :
    replay_events (l ++ [e]) = some (e.new_plan, e.new_status) := by
  unfold replay_events
  rw [List.foldl_append]
  rfl

/-- Filtering an account's events out of a ledger with one appended
row. -/
theorem filter_account_append (evs : List BillingEvent)
    (ev : BillingEvent) (acc : Int) :
    (evs ++ [ev]).filter (fun e => e.account_id == acc)
      = evs.filter (fun e => e.account_id == acc) ++
        (if ev.account_id == acc then [ev] else []) := by
  rw [List.filter_append]
  congr 1
  by_cases hev : ev.account_id = acc <;> simp [hev]

/-- A successful `subscription_update` preserves the replay invariant. -/
theorem replay_inv_update (st st' : DBState) (a : Int) (p : Plan)
    (s : SubStatus) (vu adm : Int) (nts : Option String) (now : Int)
    (fail : StoreFailure) (hinv : replay_state_consistent st)
    (h : subscription_update st a p s vu adm nts now fail = some st') :
    replay_state_consistent st' := by
  rw [subscription_update_some_iff] at h
  obtain ⟨-, -, hst⟩ := h
  subst hst
  intro acc
  unfold account_events subscription_get_by_account
  simp only []
  rw [filter_account_append]
  by_cases hacc : acc = a
  · subst hacc
    rw [if_pos (by simp [subscription_update_event])]
    rw [replay_events_append_single]
    cases hc2 : List.find? (fun x => x.account_id == acc) st.subs with
    | some c =>
        rw [Option.isSome_some]
        rw [find?_upsert_update_self st acc c hc2 p s vu (nts.getD "") now]
        simp [subscription_update_event]
    | none =>
        rw [Option.isSome_none]
        rw [find?_upsert_insert_self st acc hc2 p s vu (nts.getD "") now]
        simp [subscription_update_event]
  · have hne : ((subscription_update_event
        (List.find? (fun x => x.account_id == a) st.subs) a p s adm
        (nts.getD "") now).account_id == acc) = false := by
      simp only [subscription_update_event]
      exact beq_eq_false_iff_ne.mpr (fun hx => hacc hx.symm)
    simp only [hne, Bool.false_eq_true, if_false, List.append_nil]
    have hrhs : (subscription_upsert_rows st
        (List.find? (fun x => x.account_id == a) st.subs).isSome a p s vu
        (nts.getD "") now).find? (fun x => x.account_id == acc)
        = st.subs.find? (fun x => x.account_id == acc) := by
      cases hc2 : List.find? (fun x => x.account_id == a) st.subs with
      | some c =>
          rw [Option.isSome_some]
          exact find?_upsert_update_other st a acc hacc p s vu (nts.getD "")
            now
      | none =>
          rw [Option.isSome_none]
          exact find?_upsert_insert_other st a acc hacc p s vu (nts.getD "")
            now
    rw [hrhs]
    exact hinv acc

/-- After a successful `subscription_update`, the account's row carries
exactly the written plan and status. -/
theorem update_result_plan_status (st st' : DBState) (a : Int) (p : Plan)
    (s : SubStatus) (vu adm : Int) (nts : Option String) (now : Int)
    (fail : StoreFailure)
    (h : subscription_update st a p s vu adm nts now fail = some st') :
    (subscription_get_by_account st' a).map
        (fun sub => (subscription_plan_to_string sub.plan,
                     subscription_status_to_string sub.status))
      = some (subscription_plan_to_string p,
              subscription_status_to_string s) := by
  rw [subscription_update_some_iff] at h
  obtain ⟨-, -, hst⟩ := h
  subst hst
  unfold subscription_get_by_account
  simp only []
  cases hc2 : List.find? (fun x => x.account_id == a) st.subs with
  | some c =>
      rw [Option.isSome_some]
      rw [find?_upsert_update_self st a c hc2 p s vu (nts.getD "") now]
      rfl
  | none =>
      rw [Option.isSome_none]
      rw [find?_upsert_insert_self st a hc2 p s vu (nts.getD "") now]
      rfl

/-- A successful `billing_mark_as_paid` preserves the replay invariant:
its `payment_received` row records the same `new_plan`/`new_status` that
the inner `subscription_update` just committed, so replay still lands on
the final row's plan and status. -/
theorem replay_inv_mark_paid (st st' : DBState) (a : Int) (p : Plan)
    (dd amt : Int) (pm ref : Option String) (adm : Int)
    (nts : Option String) (now : Int) (fail : StoreFailure) (pef : Bool)
    (hinv : replay_state_consistent st)
    (h : billing_mark_as_paid st a p dd amt pm ref adm nts now fail pef
      = some st') :
    replay_state_consistent st' := by
  simp only [billing_mark_as_paid] at h
  cases hu : subscription_update st a p SubStatus.active
      (now + dd * 24 * 60 * 60) adm nts now fail with
  | none => rw [hu] at h; cases h
  | some st1 =>
      rw [hu] at h
      have hinv1 : replay_state_consistent st1 :=
        replay_inv_update st st1 a p SubStatus.active
          (now + dd * 24 * 60 * 60) adm nts now fail hinv hu
      cases pef with
      | true =>
          simp only [billing_log_event, if_true, Option.getD_none,
            Option.some.injEq] at h
          subst h
          exact hinv1
      | false =>
          simp only [billing_log_event, Bool.false_eq_true, if_false,
            Option.getD_some, Option.some.injEq] at h
          subst h
          intro acc
          unfold account_events subscription_get_by_account
          simp only []
          rw [filter_account_append]
          by_cases hacc : acc = a
          · subst hacc
            rw [if_pos (by simp)]
            rw [replay_events_append_single]
            have hrow := update_result_plan_status st st1 acc p
              SubStatus.active (now + dd * 24 * 60 * 60) adm nts now fail
              hu
            unfold subscription_get_by_account at hrow
            rw [hrow]
          · have hne : (a == acc) = false :=
              beq_eq_false_iff_ne.mpr (fun hx => hacc hx.symm)
            simp only [hne, Bool.false_eq_true, if_false, List.append_nil]
            exact hinv1 acc

/-- Every ledger-writing call of the program — engine update/create and
the admin markPaid — preserves the replay invariant, including failed
(rolled-back) calls. -/
theorem replay_inv_apply_ledger_op (st : DBState) (op : LedgerOp)
    (hinv : replay_state_consistent st) :
    replay_state_consistent (apply_ledger_op st op) := by
  cases op with
  | update a p s vu adm nts now fail =>
      show replay_state_consistent
        ((subscription_update st a p s vu adm nts now fail).getD st)
      cases h : subscription_update st a p s vu adm nts now fail with
      | none => simpa using hinv
      | some st2 =>
          simpa using replay_inv_update st st2 a p s vu adm nts now fail
            hinv h
  | create a p now fail =>
      show replay_state_consistent
        ((subscription_update st a p SubStatus.active
          (now + 365 * 24 * 60 * 60) 0 (some "Initial subscription") now
          fail).getD st)
      cases h : subscription_update st a p SubStatus.active
          (now + 365 * 24 * 60 * 60) 0 (some "Initial subscription") now
          fail with
      | none => simpa using hinv
      | some st2 =>
          simpa using replay_inv_update st st2 a p SubStatus.active
            (now + 365 * 24 * 60 * 60) 0 (some "Initial subscription") now
            fail hinv h
  | markPaid a p dd amt pm ref adm nts now fail pef =>
      show replay_state_consistent
        ((billing_mark_as_paid st a p dd amt pm ref adm nts now fail
          pef).getD st)
      cases h : billing_mark_as_paid st a p dd amt pm ref adm nts now fail
          pef with
      | none => simpa using hinv
      | some st2 =>
          simpa using replay_inv_mark_paid st st2 a p dd amt pm ref adm
            nts now fail pef hinv h

/-- The replay invariant holds along any sequence of ledger-writing
calls. -/
theorem replay_inv_apply_ledger_ops (ops : List LedgerOp) (st : DBState)
    (hinv : replay_state_consistent st) :
    replay_state_consistent (apply_ledger_ops st ops) := by
  induction ops generalizing st with
  | nil => exact hinv
  | cons op ops ih =>
      have : apply_ledger_ops st (op :: ops)
          = apply_ledger_ops (apply_ledger_op st op) ops := rfl
      rw [this]
      exact ih (apply_ledger_op st op) (replay_inv_apply_ledger_op st op
        hinv)

/-- Counterexample to claim C7: no replay function on the ledger alone
can reconstruct the final Subscription row — two call histories that
differ only in `valid_until` produce identical BillingEvent sequences
(the events do not record the validity window) but different final
subscription rows. -/
theorem replay_counterexample :
    ¬ ∃ f : List BillingEvent → Option Subscription,
        ∀ ops : List EngineOp,
          f (apply_ops db_empty ops).events
            = subscription_get_by_account (apply_ops db_empty ops) 1 := by
  rintro ⟨f, hf⟩
  have h1 := hf [EngineOp.update 1 .pro .active 100 0 none 50 noFail]
  have h2 := hf [EngineOp.update 1 .pro .active 200 0 none 50 noFail]
  have hev : (apply_ops db_empty
        [EngineOp.update 1 .pro .active 100 0 none 50 noFail]).events
      = (apply_ops db_empty
        [EngineOp.update 1 .pro .active 200 0 none 50 noFail]).events := by
    decide
  rw [hev] at h1
  have hsub := h1.symm.trans h2
  exact absurd hsub (by decide)

/-- C7 (amended): along every history of the program's ledger-writing
calls — engine `subscription_update`/`subscription_create` AND the admin
route's `billing_mark_as_paid` with its extra `payment_received` rows —
replaying the full ordered sequence of an account's BillingEvents
reconstructs the final subscription's plan AND status exactly (and
yields nothing exactly when the account has no row), but not the full
Subscription state: the validity window is absent from the ledger. -/
theorem replay_reconstructs_plan_status (ops : List LedgerOp) (acc : Int) :
    replay_events (account_events (apply_ledger_ops db_empty ops) acc)
      = (subscription_get_by_account (apply_ledger_ops db_empty ops)
          acc).map
          (fun sub => (subscription_plan_to_string sub.plan,
                       subscription_status_to_string sub.status)) :=
  replay_inv_apply_ledger_ops ops db_empty (fun _ => rfl) acc

end Cero
